import Mathlib

/-!
Shallow embedding of the capability-probing strategy adapter in
`apiserver/rest/strategy.go` (package `rest` of sharedlib-go), together with
the auxiliary declarations of the capability interfaces and the Go standard
library / apimachinery behavior the adapter leans on.

Modelling conventions:
  * A Go `runtime.Object` is an `Obj`: its observable data (identity
    metadata, status value, list contents, list metadata) plus one Boolean
    flag per optional capability interface the adapter probes for
    (`obj.(Interface)` type assertions become flag tests).  The behavior of
    a capability method is object-defined code, so each strategy operation
    takes the corresponding method implementation as an explicit function
    argument, invoked only when the flag is set — exactly Go's dynamic
    dispatch, with the method set passed alongside the value.
  * In-place mutation becomes explicit state passing: a hook that mutates
    the new object returns the updated object.
  * A Go panic is modelled as `none` / absence of a result.
  * `fmt` / `time` formatting is reimplemented (proleptic Gregorian
    calendar, as Go's `time` package uses).
-/

/-- Source `schema.GroupResource`: a group/resource pair identifying a resource kind. -/
structure GroupResource where
  group : String
  resource : String
deriving DecidableEq, Repr

/-- Source `GroupResource.String()`: `resource.group`, or just `resource` when the
group is empty. -/
def GroupResource.str (gr : GroupResource) : String :=
  if gr.group = "" then gr.resource else gr.resource ++ "." ++ gr.group

/-- Source `metav1.Status` as populated by `errNotAcceptable.Status()`. -/
structure GoStatus where
  status : String
  code : Nat
  reason : String
  message : String
deriving DecidableEq, Repr

/-- The part of `genericapirequest.RequestInfo` read by `ConvertToTable`. -/
structure RequestInfo where
  apiGroup : String
  resource : String
deriving DecidableEq, Repr

/-- A request context: `genericapirequest.RequestInfoFrom(ctx)` yields
`requestInfo` when it is `some`. -/
structure Ctx where
  requestInfo : Option RequestInfo
deriving DecidableEq, Repr

/-- A Go `time.Time`: seconds since the Unix epoch, sub-second nanoseconds,
and the location's offset from UTC in seconds. -/
structure GoTime where
  sec : Int
  nsec : Nat
  offset : Int
deriving DecidableEq, Repr

/-- Source `Time.UTC()`: same instant, UTC location. -/
def GoTime.utc (t : GoTime) : GoTime := { t with offset := 0 }

/-- Zero-pad a natural number to two digits. -/
def pad2 (n : Nat) : String :=
  if n < 10 then "0" ++ toString n else toString n

/-- Zero-pad a natural number to four digits. -/
def pad4 (n : Nat) : String :=
  if n < 10 then "000" ++ toString n
  else if n < 100 then "00" ++ toString n
  else if n < 1000 then "0" ++ toString n
  else toString n

/-- Render a (possibly negative) year, zero-padded to four digits. -/
def yearStr (y : Int) : String :=
  if y < 0 then "-" ++ pad4 y.natAbs else pad4 y.toNat

/-- Civil date (year, month, day) from days since 1970-01-01, proleptic
Gregorian calendar (the calendar Go's `time` package computes with). -/
def civilFromDays (z0 : Int) : Int × Nat × Nat :=
  let z := z0 + 719468
  let era : Int := z.ediv 146097
  let doe : Nat := (z.emod 146097).toNat
  let yoe : Nat := (doe - doe / 1460 + doe / 36524 - doe / 146096) / 365
  let doy : Nat := doe - (365 * yoe + yoe / 4 - yoe / 100)
  let mp : Nat := (5 * doy + 2) / 153
  let d : Nat := doy - (153 * mp + 2) / 5 + 1
  let m : Nat := if mp < 10 then mp + 3 else mp - 9
  ((if m ≤ 2 then (yoe : Int) + era * 400 + 1 else (yoe : Int) + era * 400), m, d)

/-- Source `Time.Format(time.RFC3339)`: whole seconds only (sub-second nanoseconds
are dropped by the layout), rendered in the time's location, `Z` suffix for
UTC. -/
def formatRFC3339 (t : GoTime) : String :=
  let lsec := t.sec + t.offset
  let days := lsec.ediv 86400
  let sod := (lsec.emod 86400).toNat
  let ymd := civilFromDays days
  let base := yearStr ymd.1 ++ "-" ++ pad2 ymd.2.1 ++ "-" ++ pad2 ymd.2.2 ++ "T" ++
      pad2 (sod / 3600) ++ ":" ++ pad2 (sod % 3600 / 60) ++ ":" ++ pad2 (sod % 60)
  if t.offset = 0 then base ++ "Z"
  else
    let a := t.offset.natAbs
    let sign := if t.offset < 0 then "-" else "+"
    base ++ sign ++ pad2 (a / 3600) ++ ":" ++ pad2 (a % 3600 / 60)

/-- Identity metadata reachable through `meta.Accessor` /
`meta.CommonAccessor`: name, creation timestamp, resource version. -/
structure ObjMeta where
  name : String
  creationTimestamp : GoTime
  resourceVersion : String
deriving DecidableEq, Repr

/-- List metadata reachable through `meta.ListAccessor`. -/
structure ListMeta where
  resourceVersion : String
  continueToken : String
  remainingItemCount : Option Int
deriving DecidableEq, Repr

/-- One table cell (`interface{}` in the Go row): the adapter itself only
produces strings, object-supplied converters may produce integers. -/
inductive Cell where
  | str (s : String)
  | int (n : Int)
deriving DecidableEq, Repr

/-- Source `metav1.TableRow`.  The Go row also embeds the raw object
(`runtime.RawExtension`); no observable behavior of the adapter depends on
it, so it is not modelled. -/
structure TableRow where
  cells : List Cell
deriving DecidableEq, Repr

/-- Source `metav1.TableColumnDefinition`. -/
structure ColumnDef where
  name : String
  type : String
  format : String
  description : String
deriving DecidableEq, Repr

/-- Source `metav1.Table`. -/
structure Table where
  columnDefinitions : List ColumnDef
  rows : List TableRow
  resourceVersion : String
  continueToken : String
  remainingItemCount : Option Int
deriving DecidableEq, Repr

/-- Source `metav1.TableOptions` (the part read by the adapter). -/
structure TableOptions where
  noHeaders : Bool
deriving DecidableEq, Repr

/-- An error returned from table conversion: either the adapter's own typed
`errNotAcceptable`, or an arbitrary error produced by an object-supplied
converter. -/
inductive TableError where
  | notAcceptable (gr : GroupResource)
  | other (msg : String)
deriving DecidableEq, Repr

/-- Source `errNotAcceptable.Error()`. -/
def errNotAcceptableMessage (gr : GroupResource) : String :=
  "the resource " ++ gr.str ++ " does not support being converted to a Table"

/-- Source `errNotAcceptable.Status()`: failure status with HTTP 406. -/
def errNotAcceptableStatus (gr : GroupResource) : GoStatus :=
  { status := "Failure"
    code := 406
    reason := "NotAcceptable"
    message := errNotAcceptableMessage gr }

/-- The `Status()` of a table-conversion error, when it has one (only the
typed not-acceptable error carries a status). -/
def TableError.statusOf : TableError → Option GoStatus
  | .notAcceptable gr => some (errNotAcceptableStatus gr)
  | .other _ => none

/-- One entry of a `field.ErrorList`. -/
structure FieldError where
  fieldPath : String
  badValue : String
  detail : String
deriving DecidableEq, Repr

/-- Source `field.ErrorList`. -/
abbrev ErrorList := List FieldError

/-- An element of a resource-object collection, as observed by the generic
row builder: identity metadata (when an accessor can be resolved), the status
value, and whether the element's type implements the `TableConverter`
capability (the element's method set is never consulted by the adapter's
list path; the flag records that the capability exists on the element). -/
structure Item where
  meta : Option ObjMeta
  status : String
  tableConverter : Bool
deriving DecidableEq, Repr

/-- A `runtime.Object` as the adapter observes it: data plus one flag per
optional capability interface.  `items = some l` holds exactly when
`meta.IsListType` is true; `listMeta` / `commonRV` are `some` exactly when
`meta.ListAccessor` / `meta.CommonAccessor` succeed; `meta` is `some`
exactly when `meta.Accessor` succeeds. -/
structure Obj where
  meta : Option ObjMeta
  status : String
  items : Option (List Item)
  listMeta : Option ListMeta
  commonRV : Option String
  statusSubResource : Bool
  prepareForCreater : Bool
  prepareForUpdater : Bool
  validater : Bool
  validateUpdater : Bool
  canonicalizer : Bool
  nameGenerator : Bool
  scoper : Bool
  allowCreateOnUpdater : Bool
  allowUnconditionalUpdater : Bool
  tableConverter : Bool
deriving DecidableEq, Repr

/-- The view of an object taken by the generic row-building closure when the
target is not a list (`fn(obj)` in the source). -/
def Obj.toItem (o : Obj) : Item :=
  { meta := o.meta, status := o.status, tableConverter := o.tableConverter }

/-- The items the generic table path iterates over: the list's elements when
`meta.IsListType` holds, otherwise the object itself. -/
def Obj.genericItems (o : Obj) : List Item :=
  match o.items with
  | some l => l
  | none => [o.toItem]

/-- Modelled from the spec: the status-sub-resource capability
(`resource.ObjectWithStatusSubResource`, declared in this repository's
`apiserver/resource` package, which is not among the provided sources).
`old.CopyStatusTo(new)` copies the status value from the old object onto the
new object, overwriting whatever status the new object carried. -/
def copyStatusTo (old obj : Obj) : Obj := { obj with status := old.status }

/-- Modelled from the spec: the external generic name generator
(`names.SimpleNameGenerator` of the host framework) appends a random suffix
to the base; `rand` is the draw from the randomness source. -/
def simpleNameGenerate (rand : String) (base : String) : String := base ++ rand

/-- External collaborator: the process-wide table of field documentation
(`metav1.ObjectMeta{}.SwaggerDoc()`).  Only the `description` fields of the
generic column definitions depend on it and no observable property in this
development reads them, so the table is modelled as empty. -/
def swaggerMetadataDescriptions (_key : String) : String := ""

/-- Source `DefaultStrategy`: the sample object (`Object`, possibly nil) and the
bound fallback table convertor (`TableConvertor`, an interface value,
possibly nil).  The `ObjectTyper` field is never read by any operation and
is not modelled. -/
structure DefaultStrategy where
  object : Option Obj
  tableConvertor : Option (Ctx → Obj → Option TableOptions → Except TableError Table)

/-- Source `NewDefaultStrategy(obj, objTyper, gr)`: binds the sample object and
installs the host framework's generic table convertor for `gr`
(`rest.NewDefaultTableConvertor`, an external constructor passed here as the
argument `mkConvertor`). -/
def NewDefaultStrategy (obj : Obj)
    (mkConvertor : GroupResource → Ctx → Obj → Option TableOptions → Except TableError Table)
    (gr : GroupResource) : DefaultStrategy :=
  { object := some obj, tableConvertor := some (mkConvertor gr) }

/-- Source `DefaultStrategy.GenerateName(base)`: the sample object's
`NameGenerator` capability when present, else the generic generator.
`nImpl` is the method set backing the capability, `rand` the randomness
draw consumed by the generic generator. -/
def DefaultStrategy.GenerateName (d : DefaultStrategy)
    (nImpl : Obj → String → String) (rand : String) (base : String) : String :=
  match d.object with
  | none => simpleNameGenerate rand base
  | some o => if o.nameGenerator then nImpl o base else simpleNameGenerate rand base

/-- Source `DefaultStrategy.NamespaceScoped()`: the sample object's `Scoper`
capability when present, else `true`. -/
def DefaultStrategy.NamespaceScoped (d : DefaultStrategy) (sImpl : Obj → Bool) : Bool :=
  match d.object with
  | none => true
  | some o => if o.scoper then sImpl o else true

/-- Source `DefaultStrategy.AllowCreateOnUpdate()`: the sample object's capability
when present, else `false`. -/
def DefaultStrategy.AllowCreateOnUpdate (d : DefaultStrategy) (aImpl : Obj → Bool) : Bool :=
  match d.object with
  | none => false
  | some o => if o.allowCreateOnUpdater then aImpl o else false

/-- Source `DefaultStrategy.AllowUnconditionalUpdate()`: the sample object's
capability when present, else `false`. -/
def DefaultStrategy.AllowUnconditionalUpdate (d : DefaultStrategy) (aImpl : Obj → Bool) : Bool :=
  match d.object with
  | none => false
  | some o => if o.allowUnconditionalUpdater then aImpl o else false

/-- Source `DefaultStrategy.PrepareForCreate(ctx, obj)`: invoke the target object's
`PrepareForCreater` capability when present, else no-op.  `pImpl` is the
method set; the result is the (possibly mutated) object. -/
def DefaultStrategy.PrepareForCreate (pImpl : Ctx → Obj → Obj) (ctx : Ctx) (obj : Obj) : Obj :=
  if obj.prepareForCreater then pImpl ctx obj else obj

/-- Source `DefaultStrategy.Canonicalize(obj)`: invoke the target object's
`Canonicalizer` capability when present, else no-op. -/
def DefaultStrategy.Canonicalize (cImpl : Obj → Obj) (obj : Obj) : Obj :=
  if obj.canonicalizer then cImpl obj else obj

/-- Source `DefaultStrategy.PrepareForUpdate(ctx, obj, old)`.
Step 1: if `obj` implements the status-sub-resource capability, the source
performs the unchecked type assertion
`old.(resource.ObjectWithStatusSubResource)` and calls `CopyStatusTo`; when
`old` does not implement the capability the assertion panics, modelled as
`none`.  Step 2: if `obj` implements `PrepareForUpdater`, invoke it with the
old object (`uImpl ctx old self` is the method set, returning the mutated
new object). -/
def DefaultStrategy.PrepareForUpdate (uImpl : Ctx → Obj → Obj → Obj)
    (ctx : Ctx) (obj old : Obj) : Option Obj :=
  let step1 : Option Obj :=
    if obj.statusSubResource then
      if old.statusSubResource then some (copyStatusTo old obj) else none
    else some obj
  step1.map fun o => if o.prepareForUpdater then uImpl ctx old o else o

/-- Source `DefaultStrategy.Validate(ctx, obj)`: the object's `Validater`
capability result when present, else the empty error list. -/
def DefaultStrategy.Validate (vImpl : Obj → Ctx → ErrorList) (ctx : Ctx) (obj : Obj) : ErrorList :=
  if obj.validater then vImpl obj ctx else []

/-- Source `DefaultStrategy.ValidateUpdate(ctx, obj, old)`: the new object's
`ValidateUpdater` capability result when present, else the empty error
list. -/
def DefaultStrategy.ValidateUpdate (vImpl : Obj → Ctx → Obj → ErrorList)
    (ctx : Ctx) (obj old : Obj) : ErrorList :=
  if obj.validateUpdater then vImpl obj ctx old else []

/-- Source `DefaultStrategy.WarningsOnCreate`: always nil. -/
def DefaultStrategy.WarningsOnCreate (_ctx : Ctx) (_obj : Obj) : List String := []

/-- Source `DefaultStrategy.WarningsOnUpdate`: always nil. -/
def DefaultStrategy.WarningsOnUpdate (_ctx : Ctx) (_obj _old : Obj) : List String := []

/-- The group/resource the generic row builder reports in its
not-acceptable error: taken from the request info in the context, empty
otherwise. -/
def grFromCtx (ctx : Ctx) : GroupResource :=
  match ctx.requestInfo with
  | some info => { group := info.apiGroup, resource := info.resource }
  | none => { group := "", resource := "" }

/-- The closure `fn` of `ConvertToTable`: resolve the item's metadata
accessor; on failure return the typed not-acceptable error, on success emit
one row with the name and the creation timestamp rendered as RFC3339 in
UTC. -/
def genericRow (ctx : Ctx) (it : Item) : Except TableError TableRow :=
  match it.meta with
  | none => .error (.notAcceptable (grFromCtx ctx))
  | some m =>
    .ok { cells := [Cell.str m.name, Cell.str (formatRFC3339 m.creationTimestamp.utc)] }

/-- The iteration of `fn` over the items (`meta.EachListItem` on the list
path, the single `fn(obj)` call otherwise): rows in order, stopping at the
first error. -/
def buildRows (ctx : Ctx) : List Item → Except TableError (List TableRow)
  | [] => .ok []
  | it :: rest =>
    match genericRow ctx it with
    | .error e => .error e
    | .ok row =>
      match buildRows ctx rest with
      | .error e => .error e
      | .ok rows => .ok (row :: rows)

/-- The generic column definitions installed unless headers are
suppressed. -/
def genericColumns : List ColumnDef :=
  [ { name := "Name", type := "string", format := "name",
      description := swaggerMetadataDescriptions "name" },
    { name := "Created At", type := "date", format := "",
      description := swaggerMetadataDescriptions "creationTimestamp" } ]

/-- Source `DefaultStrategy.ConvertToTable(ctx, obj, tableOptions)`.  If the object
implements the `TableConverter` capability (`tImpl` is its method set), its
result is returned as-is.  Otherwise rows are built generically — over the
list items when the object is a list type, over the object itself otherwise
— then list metadata (or, failing that, the common resource version) is
copied onto the table, and the generic column definitions are installed
unless the table options request no headers.  The receiver `d` is bound by
the method but never read by its body. -/
def DefaultStrategy.ConvertToTable (d : DefaultStrategy)
    (tImpl : Obj → Ctx → Option TableOptions → Except TableError Table)
    (ctx : Ctx) (obj : Obj) (tableOptions : Option TableOptions) :
    Except TableError Table :=
  if obj.tableConverter then tImpl obj ctx tableOptions
  else
    match buildRows ctx obj.genericItems with
    | .error e => .error e
    | .ok rows =>
      let meta3 : String × String × Option Int :=
        match obj.listMeta with
        | some lm => (lm.resourceVersion, lm.continueToken, lm.remainingItemCount)
        | none =>
          match obj.commonRV with
          | some rv => (rv, "", none)
          | none => ("", "", none)
      let cols : List ColumnDef :=
        match tableOptions with
        | some opt => if opt.noHeaders then [] else genericColumns
        | none => genericColumns
      .ok { columnDefinitions := cols
            rows := rows
            resourceVersion := meta3.1
            continueToken := meta3.2.1
            remainingItemCount := meta3.2.2 }

/-- Source `PrepareForUpdaterStrategy`: a wrapper around an update strategy whose
only own behavior is the optional `OverrideFn`.  The override may mutate
both objects, so its model returns the pair (new object, old object). -/
structure PrepareForUpdaterStrategy where
  overrideFn : Option (Ctx → Obj → Obj → Obj × Obj)

/-- Source `PrepareForUpdaterStrategy.PrepareForUpdate(ctx, obj, old)`: call the
override function when one was configured, otherwise do nothing (the nil
check makes the nil case a no-op rather than a panic). -/
def PrepareForUpdaterStrategy.PrepareForUpdate (s : PrepareForUpdaterStrategy)
    (ctx : Ctx) (obj old : Obj) : Obj × Obj :=
  match s.overrideFn with
  | some f => f ctx obj old
  | none => (obj, old)

/-! Concrete fixtures, mirroring the objects exercised by the repository's
ginkgo suite (`testObj`, `testObjList`, `testObjListWithConvertor`). -/

/-- Go's zero `time.Time`: 0001-01-01T00:00:00 UTC. -/
def goZeroTime : GoTime := { sec := -62135596800, nsec := 0, offset := 0 }

/-- A baseline object implementing no capability at all. -/
def obj0 : Obj :=
  { meta := none, status := "", items := none, listMeta := none, commonRV := none
    statusSubResource := false, prepareForCreater := false, prepareForUpdater := false
    validater := false, validateUpdater := false, canonicalizer := false
    nameGenerator := false, scoper := false, allowCreateOnUpdater := false
    allowUnconditionalUpdater := false, tableConverter := false }

/-- The new object of the update pair: carries a status sub-resource. -/
def objNew : Obj := { obj0 with statusSubResource := true, status := "new-status" }

/-- The old object of the update pair: carries a status sub-resource. -/
def objOld : Obj := { obj0 with statusSubResource := true, status := "old-status" }

/-- An old object without the status-sub-resource capability. -/
def objOldNoCap : Obj := { obj0 with status := "old-status" }

/-- A list element named obj1 whose type carries the tabular-rendering
capability (like `testObj` in the suite). -/
def itemObj1 : Item :=
  { meta := some { name := "obj1", creationTimestamp := goZeroTime, resourceVersion := "" }
    status := "ready", tableConverter := true }

/-- A list element named obj2 whose type carries the tabular-rendering
capability. -/
def itemObj2 : Item :=
  { meta := some { name := "obj2", creationTimestamp := goZeroTime, resourceVersion := "" }
    status := "pending", tableConverter := true }

/-- A list element whose identity metadata cannot be resolved. -/
def itemNoMeta : Item := { meta := none, status := "", tableConverter := false }

/-- A collection of two renderable elements whose own type does not carry
the tabular-rendering capability (like `testObjList`). -/
def testList : Obj :=
  { obj0 with
    items := some [itemObj1, itemObj2]
    listMeta := some { resourceVersion := "", continueToken := "", remainingItemCount := none } }

/-- A collection containing an element with unresolvable metadata. -/
def badList : Obj :=
  { obj0 with
    items := some [itemNoMeta]
    listMeta := some { resourceVersion := "", continueToken := "", remainingItemCount := none } }

/-- A single object carrying the tabular-rendering capability (like the
suite's `testObj{Name: "my-object", Status: "active"}`). -/
def myObj : Obj :=
  { obj0 with
    meta := some { name := "my-object", creationTimestamp := goZeroTime, resourceVersion := "" }
    status := "active", tableConverter := true }

/-- A single object with no capabilities but resolvable metadata: exercises
the generic single-object row path.  Its creation timestamp carries a
non-zero sub-second part and a non-UTC location. -/
def objPlain : Obj :=
  { obj0 with
    meta := some { name := "my-object", creationTimestamp := { sec := 0, nsec := 5, offset := 3600 }
                   resourceVersion := "7" }
    commonRV := some "7" }

/-- The method set of the suite's `testObj.ConvertToTable`: columns
{Name, Status} and the single row {name, status}. -/
def testObjConvert (o : Obj) (_ctx : Ctx) (_opts : Option TableOptions) :
    Except TableError Table :=
  .ok { columnDefinitions :=
          [ { name := "Name", type := "string", format := "", description := "" },
            { name := "Status", type := "string", format := "", description := "" } ]
        rows := [ { cells := [Cell.str (match o.meta with | some m => m.name | none => ""),
                              Cell.str o.status] } ]
        resourceVersion := "", continueToken := "", remainingItemCount := none }

/-- A sample object carrying the name-generation capability. -/
def genObj : Obj := { obj0 with nameGenerator := true }

/-- The method set of the suite's `nameGen.GenerateName`: appends -GEN. -/
def genImpl (_o : Obj) (base : String) : String := base ++ "-GEN"

/-- A strategy bound to the name-generating sample object. -/
def dGen : DefaultStrategy := { object := some genObj, tableConvertor := none }

/-- A strategy bound to a capability-free sample object. -/
def dPlain : DefaultStrategy := { object := some obj0, tableConvertor := none }

/-- A context carrying no request info. -/
def ctx0 : Ctx := { requestInfo := none }

/-- A context whose request info names the arc/testobjs resource. -/
def ctxArc : Ctx := { requestInfo := some { apiGroup := "arc", resource := "testobjs" } }

/-- A concrete update-override function: marks the new object and leaves the
old one alone (distinguishes one invocation from zero or two). -/
def overrideMark (_ctx : Ctx) (obj old : Obj) : Obj × Obj :=
  ({ obj with status := obj.status ++ "+override" }, old)

/-- A table-converter method set that is never consulted on the generic
paths exercised below. -/
def unusedConvert (_o : Obj) (_ctx : Ctx) (_opts : Option TableOptions) :
    Except TableError Table :=
  .error (.other "unused")

/-- An identity update-normalization method set. -/
def idUpdate (_ctx : Ctx) (_old : Obj) (o : Obj) : Obj := o

/-- The table produced by the generic single-object path on `objPlain`. -/
def tPlain : Table :=
  { columnDefinitions := genericColumns
    rows := [ { cells := [Cell.str "my-object", Cell.str "1970-01-01T00:00:00Z"] } ]
    resourceVersion := "7", continueToken := "", remainingItemCount := none }

/-- An object carrying the validation and update-validation capabilities. -/
def valObj : Obj := { obj0 with validater := true, validateUpdater := true }

/-- The method set of the suite's `testObj.Validate`. -/
def vImpl0 (_o : Obj) (_ctx : Ctx) : ErrorList :=
  [{ fieldPath := "spec", badValue := "bad", detail := "invalid" }]

/-- The method set of the suite's `testObj.ValidateUpdate`. -/
def uImpl0 (_o : Obj) (_ctx : Ctx) (_old : Obj) : ErrorList :=
  [{ fieldPath := "spec", badValue := "bad", detail := "invalid" }]

/-- An update-override wrapper with no substitute function configured. -/
def sNone : PrepareForUpdaterStrategy := { overrideFn := none }

/-- An update-override wrapper configured with `overrideMark`. -/
def sMark : PrepareForUpdaterStrategy := { overrideFn := some overrideMark }

/-! Helper lemmas about the generic row builder. -/

/-- Rows built by the generic path relate pointwise to the items they came
from: each item has resolvable metadata and yields exactly the row with its
name and its creation timestamp rendered as RFC3339 in UTC. -/
theorem buildRows_ok_forall2 (ctx : Ctx) (its : List Item) (rows : List TableRow)
    (h : buildRows ctx its = .ok rows) :
    List.Forall₂ (fun (it : Item) (row : TableRow) => ∃ m, it.meta = some m ∧
      row.cells = [Cell.str m.name, Cell.str (formatRFC3339 m.creationTimestamp.utc)])
      its rows := by
  induction its generalizing rows with
  | nil =>
    simp [buildRows] at h
    subst h
    exact List.Forall₂.nil
  | cons it rest ih =>
    unfold buildRows at h
    cases hg : genericRow ctx it with
    | error e => rw [hg] at h; exact Except.noConfusion h
    | ok row =>
      rw [hg] at h
      cases hr : buildRows ctx rest with
      | error e => rw [hr] at h; exact Except.noConfusion h
      | ok rows2 =>
        rw [hr] at h
        injection h with h2
        subst h2
        refine List.Forall₂.cons ?_ (ih rows2 hr)
        unfold genericRow at hg
        cases hm : it.meta with
        | none => rw [hm] at hg; exact Except.noConfusion hg
        | some m =>
          rw [hm] at hg
          injection hg with hg2
          exact ⟨m, rfl, by rw [← hg2]⟩

/-- When the generic row builder fails, the error is the typed
not-acceptable error for the request's group/resource, and some item's
metadata accessor failed. -/
theorem buildRows_error_notAcceptable (ctx : Ctx) (its : List Item) (e : TableError)
    (h : buildRows ctx its = .error e) :
    e = .notAcceptable (grFromCtx ctx) ∧ ∃ it ∈ its, it.meta = none := by
  induction its with
  | nil => simp [buildRows] at h
  | cons it rest ih =>
    unfold buildRows at h
    cases hg : genericRow ctx it with
    | error e2 =>
      rw [hg] at h
      injection h with h2
      subst h2
      unfold genericRow at hg
      cases hm : it.meta with
      | none =>
        rw [hm] at hg
        injection hg with hg2
        exact ⟨hg2.symm, it, List.mem_cons_self it rest, hm⟩
      | some m => rw [hm] at hg; exact Except.noConfusion hg
    | ok row =>
      rw [hg] at h
      cases hr : buildRows ctx rest with
      | error e2 =>
        rw [hr] at h
        injection h with h2
        subst h2
        obtain ⟨he, it2, hmem, hm⟩ := ih hr
        exact ⟨he, it2, List.mem_cons_of_mem it hmem, hm⟩
      | ok rows2 => rw [hr] at h; exact Except.noConfusion h

/-- C1: whenever `PrepareForUpdate(ctx, new, old)` returns and the new
object implements the status-sub-resource capability, the status value is
copied from the old object onto the new object unconditionally, before the
update-normalization hook runs: the result is exactly the status-copied new
object, further normalized by the hook when (and only when) the hook
capability is present; without the hook the returned object's status equals
the old object's status, regardless of the new object's prior status. -/
theorem prepareForUpdate_copies_status_before_hook
    (uImpl : Ctx → Obj → Obj → Obj) (ctx : Ctx) (obj old r : Obj)
    (hcap : obj.statusSubResource = true)
    (hret : DefaultStrategy.PrepareForUpdate uImpl ctx obj old = some r) :
    (obj.prepareForUpdater = false → r.status = old.status) ∧
    r = (if obj.prepareForUpdater then uImpl ctx old (copyStatusTo old obj)
         else copyStatusTo old obj) ∧
    (copyStatusTo old obj).status = old.status := by
  unfold DefaultStrategy.PrepareForUpdate at hret
  rw [hcap] at hret
  cases hold : old.statusSubResource with
  | false => rw [hold] at hret; simp at hret
  | true =>
    rw [hold] at hret
    simp only [if_true, Option.map_some'] at hret
    injection hret with h2
    refine ⟨fun hnp => ?_, ?_, rfl⟩
    · rw [← h2]
      simp [copyStatusTo, hnp]
    · rw [← h2]
      simp [copyStatusTo]

/-- C1 witness: on the suite's update pair (new status `new-status`, old
status `old-status`, no normalization hook) the returned object's status is
the old status. -/
theorem prepareForUpdate_copies_status_before_hook_witness :
    (copyStatusTo objOld objNew).status = objOld.status ∧
    copyStatusTo objOld objNew =
      (if objNew.prepareForUpdater then idUpdate ctx0 objOld (copyStatusTo objOld objNew)
       else copyStatusTo objOld objNew) :=
  have h := prepareForUpdate_copies_status_before_hook idUpdate ctx0 objNew objOld
    (copyStatusTo objOld objNew) rfl rfl
  ⟨h.1 rfl, h.2.1⟩

/-- C2 (code evidence): on a non-empty collection whose elements all
implement the tabular-rendering capability while the collection type does
not, `ConvertToTable` does not render the elements through that capability:
it takes the hand-built generic path and emits name/creation-timestamp rows
under the generic Name and Created At columns. -/
theorem convertToTable_list_ignores_item_capability :
    itemObj1.tableConverter = true ∧ itemObj2.tableConverter = true ∧
    testList.tableConverter = false ∧
    DefaultStrategy.ConvertToTable dPlain unusedConvert ctx0 testList none =
      Except.ok { columnDefinitions := genericColumns
                  rows := [ { cells := [Cell.str "obj1", Cell.str "0001-01-01T00:00:00Z"] },
                            { cells := [Cell.str "obj2", Cell.str "0001-01-01T00:00:00Z"] } ]
                  resourceVersion := "", continueToken := "", remainingItemCount := none } :=
  ⟨rfl, rfl, rfl, rfl⟩

/-- C3 counterexample: `PrepareForUpdate` panics (no result) when the new
object implements the status-sub-resource capability and the old object
does not: the source performs the unchecked type assertion
`old.(resource.ObjectWithStatusSubResource)`. -/
theorem prepareForUpdate_panics_on_mismatched_status_capability :
    objNew.statusSubResource = true ∧ objOldNoCap.statusSubResource = false ∧
    DefaultStrategy.PrepareForUpdate idUpdate ctx0 objNew objOldNoCap = none :=
  ⟨rfl, rfl, rfl⟩

/-- C3 amended: `PrepareForUpdate(ctx, new, old)` never panics provided the
old object implements the status-sub-resource capability whenever the new
object does (in particular whenever both have the same type); absence of
any capability on the new object alone never causes a panic or an error. -/
theorem prepareForUpdate_no_panic_when_old_covers_status
    (uImpl : Ctx → Obj → Obj → Obj) (ctx : Ctx) (obj old : Obj)
    (h : obj.statusSubResource = true → old.statusSubResource = true) :
    (DefaultStrategy.PrepareForUpdate uImpl ctx obj old).isSome = true := by
  unfold DefaultStrategy.PrepareForUpdate
  cases hobj : obj.statusSubResource with
  | false => simp
  | true => rw [h hobj]; simp

/-- C3 amended witness: the suite's update pair (both objects carry the
capability) yields a result. -/
theorem prepareForUpdate_no_panic_when_old_covers_status_witness :
    (DefaultStrategy.PrepareForUpdate idUpdate ctx0 objNew objOld).isSome = true :=
  prepareForUpdate_no_panic_when_old_covers_status idUpdate ctx0 objNew objOld (fun _ => rfl)

/-- C4: when the target object itself implements the tabular-rendering
capability, `ConvertToTable` delegates entirely to it and returns its result
unchanged. -/
theorem convertToTable_delegates_to_object
    (d : DefaultStrategy) (tImpl : Obj → Ctx → Option TableOptions → Except TableError Table)
    (ctx : Ctx) (obj : Obj) (opts : Option TableOptions)
    (h : obj.tableConverter = true) :
    DefaultStrategy.ConvertToTable d tImpl ctx obj opts = tImpl obj ctx opts := by
  unfold DefaultStrategy.ConvertToTable
  rw [h]
  simp

/-- C4 witness: a renderer producing columns Name and Status and the single
row my-object/active is returned exactly. -/
theorem convertToTable_delegates_to_object_witness :
    DefaultStrategy.ConvertToTable dPlain testObjConvert ctxArc myObj none =
      Except.ok { columnDefinitions :=
                    [ { name := "Name", type := "string", format := "", description := "" },
                      { name := "Status", type := "string", format := "", description := "" } ]
                  rows := [ { cells := [Cell.str "my-object", Cell.str "active"] } ]
                  resourceVersion := "", continueToken := "", remainingItemCount := none } := by
  rw [convertToTable_delegates_to_object dPlain testObjConvert ctxArc myObj none rfl]
  rfl

/-- C5: on the generic fallback path (the object does not implement the
tabular-rendering capability), a successful `ConvertToTable` emits exactly
one row per item, and each row's cells are exactly the item's name and its
creation timestamp formatted as an RFC3339 string (whole seconds, no
fractional part) in UTC. -/
theorem convertToTable_generic_rows
    (d : DefaultStrategy) (tImpl : Obj → Ctx → Option TableOptions → Except TableError Table)
    (ctx : Ctx) (obj : Obj) (opts : Option TableOptions) (t : Table)
    (hcap : obj.tableConverter = false)
    (hok : DefaultStrategy.ConvertToTable d tImpl ctx obj opts = .ok t) :
    t.rows.length = obj.genericItems.length ∧
    List.Forall₂ (fun (it : Item) (row : TableRow) => ∃ m, it.meta = some m ∧
      row.cells = [Cell.str m.name, Cell.str (formatRFC3339 m.creationTimestamp.utc)])
      obj.genericItems t.rows := by
  unfold DefaultStrategy.ConvertToTable at hok
  rw [hcap] at hok
  simp only [Bool.false_eq_true, if_false] at hok
  cases hb : buildRows ctx obj.genericItems with
  | error e => rw [hb] at hok; exact Except.noConfusion hok
  | ok rows =>
    rw [hb] at hok
    injection hok with h2
    have hf := buildRows_ok_forall2 ctx obj.genericItems rows hb
    have hrows : t.rows = rows := by rw [← h2]
    rw [hrows]
    exact ⟨hf.length_eq.symm, hf⟩

/-- C5 witness: the single plain object (creation timestamp with non-zero
sub-second part and non-UTC location) yields exactly one generic row. -/
theorem convertToTable_generic_rows_witness :
    tPlain.rows.length = objPlain.genericItems.length :=
  (convertToTable_generic_rows dPlain unusedConvert ctx0 objPlain none tPlain rfl rfl).1

/-- C6: on the generic path, every error `ConvertToTable` returns is the
typed not-acceptable error carrying the group/resource resolved from the
request context, whose status maps to HTTP 406 with reason NotAcceptable,
and it arises exactly because some item's identity metadata could not be
resolved. -/
theorem convertToTable_error_is_notAcceptable
    (d : DefaultStrategy) (tImpl : Obj → Ctx → Option TableOptions → Except TableError Table)
    (ctx : Ctx) (obj : Obj) (opts : Option TableOptions) (e : TableError)
    (hcap : obj.tableConverter = false)
    (herr : DefaultStrategy.ConvertToTable d tImpl ctx obj opts = .error e) :
    e = .notAcceptable (grFromCtx ctx) ∧
    e.statusOf = some (errNotAcceptableStatus (grFromCtx ctx)) ∧
    (errNotAcceptableStatus (grFromCtx ctx)).code = 406 ∧
    (errNotAcceptableStatus (grFromCtx ctx)).reason = "NotAcceptable" ∧
    ∃ it ∈ obj.genericItems, it.meta = none := by
  unfold DefaultStrategy.ConvertToTable at herr
  rw [hcap] at herr
  simp only [Bool.false_eq_true, if_false] at herr
  cases hb : buildRows ctx obj.genericItems with
  | ok rows => rw [hb] at herr; exact Except.noConfusion herr
  | error e2 =>
    rw [hb] at herr
    injection herr with h2
    subst h2
    obtain ⟨he, hex⟩ := buildRows_error_notAcceptable ctx obj.genericItems e2 hb
    exact ⟨he, by rw [he]; rfl, rfl, rfl, hex⟩

/-- C6 witness: a collection containing an element without resolvable
metadata, under a request for arc/testobjs, produces the not-acceptable
error with HTTP 406. -/
theorem convertToTable_error_is_notAcceptable_witness :
    (TableError.notAcceptable (grFromCtx ctxArc)).statusOf =
      some (errNotAcceptableStatus (grFromCtx ctxArc)) ∧
    (errNotAcceptableStatus (grFromCtx ctxArc)).code = 406 :=
  have h := convertToTable_error_is_notAcceptable dPlain unusedConvert ctxArc badList none
    (.notAcceptable (grFromCtx ctxArc)) rfl rfl
  ⟨h.2.1, h.2.2.1⟩

/-- C7: `Validate` (resp. `ValidateUpdate`) returns exactly the object's
validation (resp. update-validation) capability result when the capability
is present, and the empty error list when it is absent. -/
theorem validate_delegates_or_empty
    (vImpl : Obj → Ctx → ErrorList) (uImpl : Obj → Ctx → Obj → ErrorList)
    (ctx : Ctx) (obj old : Obj) :
    (obj.validater = true → DefaultStrategy.Validate vImpl ctx obj = vImpl obj ctx) ∧
    (obj.validater = false → DefaultStrategy.Validate vImpl ctx obj = []) ∧
    (obj.validateUpdater = true →
      DefaultStrategy.ValidateUpdate uImpl ctx obj old = uImpl obj ctx old) ∧
    (obj.validateUpdater = false → DefaultStrategy.ValidateUpdate uImpl ctx obj old = []) := by
  refine ⟨fun h => ?_, fun h => ?_, fun h => ?_, fun h => ?_⟩ <;>
    simp [DefaultStrategy.Validate, DefaultStrategy.ValidateUpdate, h]

/-- C7 witness: the suite's validating object returns its one-element error
list through the adapter; a capability-free object returns the empty list. -/
theorem validate_delegates_or_empty_witness :
    DefaultStrategy.Validate vImpl0 ctx0 valObj = vImpl0 valObj ctx0 ∧
    DefaultStrategy.Validate vImpl0 ctx0 obj0 = [] ∧
    DefaultStrategy.ValidateUpdate uImpl0 ctx0 valObj obj0 = uImpl0 valObj ctx0 obj0 ∧
    DefaultStrategy.ValidateUpdate uImpl0 ctx0 obj0 obj0 = [] :=
  have h1 := validate_delegates_or_empty vImpl0 uImpl0 ctx0 valObj obj0
  have h2 := validate_delegates_or_empty vImpl0 uImpl0 ctx0 obj0 obj0
  ⟨h1.1 rfl, h2.2.1 rfl, h1.2.2.1 rfl, h2.2.2.2 rfl⟩

/-- C8: `GenerateName(base)` delegates to the sample object's
name-generation capability when present; when it is absent, or when no
sample object was supplied, the result is the generic generator's output,
the base followed by the random suffix. -/
theorem generateName_delegates_or_generic
    (d : DefaultStrategy) (nImpl : Obj → String → String) (rand base : String) :
    (∀ o, d.object = some o → o.nameGenerator = true →
        d.GenerateName nImpl rand base = nImpl o base) ∧
    (∀ o, d.object = some o → o.nameGenerator = false →
        d.GenerateName nImpl rand base = base ++ rand) ∧
    (d.object = none → d.GenerateName nImpl rand base = base ++ rand) := by
  refine ⟨fun o ho hg => ?_, fun o ho hg => ?_, fun ho => ?_⟩
  · simp [DefaultStrategy.GenerateName, ho, hg]
  · simp [DefaultStrategy.GenerateName, ho, hg, simpleNameGenerate]
  · simp [DefaultStrategy.GenerateName, ho, simpleNameGenerate]

/-- C8 witness: a -GEN-appending capability yields base-GEN for base
`base`; without the capability the result is the base followed by the
random suffix. -/
theorem generateName_delegates_or_generic_witness :
    dGen.GenerateName genImpl "x7z9q" "base" = "base-GEN" ∧
    dPlain.GenerateName genImpl "x7z9q" "base" = "base" ++ "x7z9q" :=
  have h1 := generateName_delegates_or_generic dGen genImpl "x7z9q" "base"
  have h2 := generateName_delegates_or_generic dPlain genImpl "x7z9q" "base"
  ⟨(h1.1 genObj rfl rfl).trans (by decide), h2.2.1 obj0 rfl rfl⟩

/-- C9: the update-override wrapper's `PrepareForUpdate` applies the
substitute function exactly once to (context, new object, old object) when
one was configured, and otherwise returns, leaving both objects
unmodified and without panicking. -/
theorem prepareForUpdaterStrategy_override_calls_or_noop
    (s : PrepareForUpdaterStrategy) (ctx : Ctx) (obj old : Obj) :
    (∀ f, s.overrideFn = some f → s.PrepareForUpdate ctx obj old = f ctx obj old) ∧
    (s.overrideFn = none → s.PrepareForUpdate ctx obj old = (obj, old)) := by
  refine ⟨fun f hf => ?_, fun hf => ?_⟩ <;>
    simp [PrepareForUpdaterStrategy.PrepareForUpdate, hf]

/-- C9 witness: the unconfigured wrapper leaves the pair unchanged; the
configured wrapper's result is one application of the override. -/
theorem prepareForUpdaterStrategy_override_calls_or_noop_witness :
    sNone.PrepareForUpdate ctx0 objNew objOld = (objNew, objOld) ∧
    sMark.PrepareForUpdate ctx0 objNew objOld = overrideMark ctx0 objNew objOld :=
  ⟨(prepareForUpdaterStrategy_override_calls_or_noop sNone ctx0 objNew objOld).2 rfl,
   (prepareForUpdaterStrategy_override_calls_or_noop sMark ctx0 objNew objOld).1 overrideMark rfl⟩

/-- C10: the result of `ConvertToTable` is independent of the strategy's
bound `TableConvertor` field: two strategies differing only in that field
return identical results on all inputs, so the generic renderer installed
by `NewDefaultStrategy` is never consulted. -/
theorem convertToTable_independent_of_tableConvertor
    (o : Option Obj)
    (tc1 tc2 : Option (Ctx → Obj → Option TableOptions → Except TableError Table))
    (tImpl : Obj → Ctx → Option TableOptions → Except TableError Table)
    (ctx : Ctx) (obj : Obj) (opts : Option TableOptions) :
    DefaultStrategy.ConvertToTable { object := o, tableConvertor := tc1 } tImpl ctx obj opts =
    DefaultStrategy.ConvertToTable { object := o, tableConvertor := tc2 } tImpl ctx obj opts := rfl
